import Mathlib

/-!
Shallow embedding of the terminal-emulation core of `src/src/terminal_actor.rs`
(zellij-ide).  Data types and operations are translated directly from the Rust
source.  Rust `Vec` index assignment (`v[i] = x`) and `Vec::remove(0)` can
panic; the embedding models those operations in `Option`, with `none` standing
for a Rust panic.  Machine integers (`usize`) are modelled as `Nat`; Rust
`saturating_sub` coincides with truncated `Nat` subtraction.
-/

namespace ZellijIde

/-- egui `Color32`, restricted to the `from_rgb` constructor used by the code. -/
structure Color32 where
  r : Nat
  g : Nat
  b : Nat
deriving DecidableEq

/-- Rust `Color32::from_rgb`. -/
def Color32.from_rgb (r g b : Nat) : Color32 := ⟨r, g, b⟩

/-- Rust `TerminalCell` from `terminal_actor.rs` (lines 52-61). -/
structure TerminalCell where
  ch : Char
  fg : Color32
  bg : Color32
  bold : Bool
  italic : Bool
  underline : Bool
  strikethrough : Bool
deriving DecidableEq

/-- Rust `TerminalCursor` (lines 63-68). -/
structure TerminalCursor where
  x : Nat
  y : Nat
  visible : Bool
deriving DecidableEq

/-- Rust `TerminalColors` (lines 70-90). -/
structure TerminalColors where
  black : Color32
  red : Color32
  green : Color32
  yellow : Color32
  blue : Color32
  magenta : Color32
  cyan : Color32
  white : Color32
  bright_black : Color32
  bright_red : Color32
  bright_green : Color32
  bright_yellow : Color32
  bright_blue : Color32
  bright_magenta : Color32
  bright_cyan : Color32
  bright_white : Color32
  foreground : Color32
  background : Color32
deriving DecidableEq

/-- Rust `impl Default for TerminalColors` (lines 92-115). -/
def TerminalColors.default : TerminalColors :=
  { black := Color32.from_rgb 40 44 52
    red := Color32.from_rgb 224 108 117
    green := Color32.from_rgb 152 195 121
    yellow := Color32.from_rgb 229 192 123
    blue := Color32.from_rgb 97 175 239
    magenta := Color32.from_rgb 198 120 221
    cyan := Color32.from_rgb 86 182 194
    white := Color32.from_rgb 171 178 191
    bright_black := Color32.from_rgb 92 99 112
    bright_red := Color32.from_rgb 240 113 120
    bright_green := Color32.from_rgb 166 218 149
    bright_yellow := Color32.from_rgb 229 192 123
    bright_blue := Color32.from_rgb 103 173 228
    bright_magenta := Color32.from_rgb 224 108 117
    bright_cyan := Color32.from_rgb 152 195 121
    bright_white := Color32.from_rgb 208 208 208
    foreground := Color32.from_rgb 171 178 191
    background := Color32.from_rgb 40 44 52 }

/-- Rust `impl Default for TerminalCell` (lines 117-129). -/
def TerminalCell.default : TerminalCell :=
  { ch := ' '
    fg := Color32.from_rgb 171 178 191
    bg := Color32.from_rgb 40 44 52
    bold := false
    italic := false
    underline := false
    strikethrough := false }

/-- Rust `TerminalGrid` (lines 42-50).  `size = (cols, rows)` as in the source. -/
structure TerminalGrid where
  cells : List (List TerminalCell)
  cursor : TerminalCursor
  size : Nat × Nat
  title : String
  dirty_lines : List Bool
deriving DecidableEq

/-- Rust `Vec` index assignment `v[i] = x`: panics (`none`) when `i` is out of
bounds. -/
def vecSet {α : Type} (l : List α) (i : Nat) (x : α) : Option (List α) :=
  if i < l.length then some (l.set i x) else none

/-- Rust `cells[y][x] = v` on a `Vec<Vec<_>>`; `none` models the panic when
either index is out of bounds. -/
def setCell (cells : List (List TerminalCell)) (y x : Nat) (v : TerminalCell) :
    Option (List (List TerminalCell)) := do
  let row ← cells[y]?
  let row' ← vecSet row x v
  vecSet cells y row'

/-- Rust `Vec::resize(n, v)`: truncate to `n` or pad with copies of `v`. -/
def listResize {α : Type} (l : List α) (n : Nat) (v : α) : List α :=
  l.take n ++ List.replicate (n - l.length) v

/-- Rust `TerminalGrid::new` (lines 132-147). -/
def TerminalGrid.new (cols rows : Nat) : TerminalGrid :=
  { cells := List.replicate rows (List.replicate cols TerminalCell.default)
    cursor := { x := 0, y := 0, visible := true }
    size := (cols, rows)
    title := "Terminal"
    dirty_lines := List.replicate rows true }

/-- Rust `TerminalGrid::resize` (lines 149-173): rows are `Vec::resize`d to the new
column count, rows are appended or truncated, dirty flags resized with `true`,
and the cursor is clamped with `min`/`saturating_sub`. -/
def TerminalGrid.resize (g : TerminalGrid) (cols rows : Nat) : TerminalGrid :=
  let old_rows := g.size.2
  let cells0 := g.cells.map (fun row => listResize row cols TerminalCell.default)
  let cells1 :=
    if old_rows < rows then
      cells0 ++ List.replicate (rows - old_rows) (List.replicate cols TerminalCell.default)
    else
      cells0.take rows
  { cells := cells1
    cursor := { g.cursor with
                  x := min g.cursor.x (cols - 1)
                  y := min g.cursor.y (rows - 1) }
    size := (cols, rows)
    title := g.title
    dirty_lines := listResize g.dirty_lines rows true }

/-- Rust `TerminalGrid::put_char` (lines 175-188): bounds-checked write at the
cursor; out-of-range cursor positions are skipped. -/
def TerminalGrid.put_char (g : TerminalGrid) (ch : Char) (fg bg : Color32)
    (bold : Bool) : Option TerminalGrid :=
  if g.cursor.y < g.size.2 ∧ g.cursor.x < g.size.1 then do
    let cells ← setCell g.cells g.cursor.y g.cursor.x
      { ch := ch, fg := fg, bg := bg, bold := bold,
        italic := false, underline := false, strikethrough := false }
    let dirty ← vecSet g.dirty_lines g.cursor.y true
    some { g with cells := cells, dirty_lines := dirty }
  else
    some g

/-- Rust `TerminalGrid::move_cursor` (lines 190-193). -/
def TerminalGrid.move_cursor (g : TerminalGrid) (x y : Nat) : TerminalGrid :=
  { g with cursor := { g.cursor with
                         x := min x (g.size.1 - 1)
                         y := min y (g.size.2 - 1) } }

/-- Rust `TerminalGrid::clear_line` (lines 195-202). -/
def TerminalGrid.clear_line (g : TerminalGrid) (y : Nat) : Option TerminalGrid :=
  if y < g.size.2 then do
    let row ← g.cells[y]?
    let cells ← vecSet g.cells y (row.map (fun _ => TerminalCell.default))
    let dirty ← vecSet g.dirty_lines y true
    some { g with cells := cells, dirty_lines := dirty }
  else
    some g

/-- One iteration of the loop body of `TerminalGrid::scroll_up`:
`cells.remove(0)` (panics, i.e. `none`, on an empty `Vec`) followed by pushing
a default-filled row of the current width. -/
def scrollUpOnce (g : TerminalGrid) : Option TerminalGrid :=
  match g.cells with
  | [] => none
  | _ :: rest =>
    some { g with cells := rest ++ [List.replicate g.size.1 TerminalCell.default] }

/-- Iterate a fallible step `n` times. -/
def iterOpt {α : Type} (f : α → Option α) : Nat → α → Option α
  | 0, a => some a
  | n + 1, a => f a >>= iterOpt f n

/-- Rust `TerminalGrid::scroll_up` (lines 204-211): `lines` iterations of
remove-then-push, then every dirty flag set (`fill(true)`). -/
def TerminalGrid.scroll_up (g : TerminalGrid) (lines : Nat) : Option TerminalGrid := do
  let g' ← iterOpt scrollUpOnce lines g
  some { g' with dirty_lines := g'.dirty_lines.map (fun _ => true) }

/-- Rust `TerminalPerformer` (lines 215-221): the pen state (current colors, bold)
plus the grid it mutates.  The Rust struct holds the grid behind
`Arc<Mutex<_>>`; single-threaded claims let us inline it. -/
structure TerminalPerformer where
  grid : TerminalGrid
  colors : TerminalColors
  current_fg : Color32
  current_bg : Color32
  bold : Bool
deriving DecidableEq

/-- Rust `TerminalPerformer::new` (lines 223-233). -/
def TerminalPerformer.new (grid : TerminalGrid) (colors : TerminalColors) :
    TerminalPerformer :=
  { grid := grid
    colors := colors
    current_fg := colors.foreground
    current_bg := colors.background
    bold := false }

/-- Rust `Perform::print` (lines 236-251): `put_char` with the current pen, then
cursor advance with wraparound, scrolling one line at bottom-right. -/
def TerminalPerformer.print (p : TerminalPerformer) (c : Char) :
    Option TerminalPerformer :=
  p.grid.put_char c p.current_fg p.current_bg p.bold >>= fun g =>
  (if g.cursor.x < g.size.1 - 1 then
    some { g with cursor := { g.cursor with x := g.cursor.x + 1 } }
  else if g.cursor.y < g.size.2 - 1 then
    some { g with cursor := { g.cursor with x := 0, y := g.cursor.y + 1 } }
  else
    g.scroll_up 1 >>= fun g1 =>
    some { g1 with cursor := { g1.cursor with x := 0 } }) >>= fun g =>
  some { p with grid := g }

/-- Rust `Perform::execute` (lines 253-277): LF, CR, TAB and BS; every other C0
byte is ignored. -/
def TerminalPerformer.execute (p : TerminalPerformer) (byte : Nat) :
    Option TerminalPerformer :=
  (if byte = 0x0A then
    if p.grid.cursor.y < p.grid.size.2 - 1 then
      some { p.grid with cursor := { p.grid.cursor with y := p.grid.cursor.y + 1 } }
    else
      p.grid.scroll_up 1
  else if byte = 0x0D then
    some { p.grid with cursor := { p.grid.cursor with x := 0 } }
  else if byte = 0x09 then
    some { p.grid with cursor := { p.grid.cursor with
      x := min (((p.grid.cursor.x / 8) + 1) * 8) (p.grid.size.1 - 1) } }
  else if byte = 0x08 then
    if p.grid.cursor.x > 0 then
      some { p.grid with cursor := { p.grid.cursor with x := p.grid.cursor.x - 1 } }
    else
      some p.grid
  else
    some p.grid) >>= fun g =>
  some { p with grid := g }

/-- The pen update of one SGR parameter: the `match p` arms of the `'m'` case
of `csi_dispatch` (lines 371-412), which only ever write `current_fg`,
`current_bg` and `bold`.  Returns the new `(current_fg, current_bg, bold)`. -/
def sgrPen (colors : TerminalColors) (fg bg : Color32) (bold : Bool)
    (code : Nat) : Color32 × Color32 × Bool :=
  if code = 0 then (colors.foreground, colors.background, false)
  else if code = 1 then (fg, bg, true)
  else if code = 22 then (fg, bg, false)
  else if code = 30 then (colors.black, bg, bold)
  else if code = 31 then (colors.red, bg, bold)
  else if code = 32 then (colors.green, bg, bold)
  else if code = 33 then (colors.yellow, bg, bold)
  else if code = 34 then (colors.blue, bg, bold)
  else if code = 35 then (colors.magenta, bg, bold)
  else if code = 36 then (colors.cyan, bg, bold)
  else if code = 37 then (colors.white, bg, bold)
  else if code = 39 then (colors.foreground, bg, bold)
  else if code = 40 then (fg, colors.black, bold)
  else if code = 41 then (fg, colors.red, bold)
  else if code = 42 then (fg, colors.green, bold)
  else if code = 43 then (fg, colors.yellow, bold)
  else if code = 44 then (fg, colors.blue, bold)
  else if code = 45 then (fg, colors.magenta, bold)
  else if code = 46 then (fg, colors.cyan, bold)
  else if code = 47 then (fg, colors.white, bold)
  else if code = 49 then (fg, colors.background, bold)
  else if code = 90 then (colors.bright_black, bg, bold)
  else if code = 91 then (colors.bright_red, bg, bold)
  else if code = 92 then (colors.bright_green, bg, bold)
  else if code = 93 then (colors.bright_yellow, bg, bold)
  else if code = 94 then (colors.bright_blue, bg, bold)
  else if code = 95 then (colors.bright_magenta, bg, bold)
  else if code = 96 then (colors.bright_cyan, bg, bold)
  else if code = 97 then (colors.bright_white, bg, bold)
  else (fg, bg, bold)

/-- One SGR parameter applied to the performer: updates exactly the pen
fields, per `sgrPen`. -/
def TerminalPerformer.applySgrParam (p : TerminalPerformer) (code : Nat) :
    TerminalPerformer :=
  { p with current_fg := (sgrPen p.colors p.current_fg p.current_bg p.bold code).1
           current_bg := (sgrPen p.colors p.current_fg p.current_bg p.bold code).2.1
           bold := (sgrPen p.colors p.current_fg p.current_bg p.bold code).2.2 }

/-- The `'m'` arm of `csi_dispatch`: fold `applySgrParam` over the parameter
list. -/
def TerminalPerformer.applySgr (p : TerminalPerformer) (params : List Nat) :
    TerminalPerformer :=
  params.foldl TerminalPerformer.applySgrParam p

/-- Clear `cells[y][x]` to the default cell for every `x` in `xs` (the loop
bodies of the `'K'`/`'J'` arms; direct `Vec` indexing, so `none` on an
out-of-bounds index). -/
def clearCellsInRow (g : TerminalGrid) (y : Nat) : List Nat → Option TerminalGrid
  | [] => some g
  | x :: xs => do
    let cells ← setCell g.cells y x TerminalCell.default
    clearCellsInRow { g with cells := cells } y xs

/-- Rust `clear_line` over a list of row indices (loops in the `'J'` arm). -/
def clearLines (g : TerminalGrid) : List Nat → Option TerminalGrid
  | [] => some g
  | y :: ys => do
    let g' ← g.clear_line y
    clearLines g' ys

/-- Rust `Perform::csi_dispatch` (lines 279-415).  Parameters are the flattened
integer parameter list; `params[0]?.getD d` renders Rust's
`params.iter().nth(0).and_then(|p| p.get(0)).unwrap_or(&d)`. -/
def TerminalPerformer.csi_dispatch (p : TerminalPerformer) (params : List Nat)
    (c : Char) : Option TerminalPerformer :=
  if c = 'H' ∨ c = 'f' then
    let row := (params[0]?).getD 1
    let col := (params[1]?).getD 1
    some { p with grid := p.grid.move_cursor (col - 1) (row - 1) }
  else if c = 'A' then
    let n := (params[0]?).getD 1
    some { p with grid := { p.grid with
      cursor := { p.grid.cursor with y := p.grid.cursor.y - n } } }
  else if c = 'B' then
    let n := (params[0]?).getD 1
    some { p with grid := { p.grid with
      cursor := { p.grid.cursor with
        y := min (p.grid.cursor.y + n) (p.grid.size.2 - 1) } } }
  else if c = 'C' then
    let n := (params[0]?).getD 1
    some { p with grid := { p.grid with
      cursor := { p.grid.cursor with
        x := min (p.grid.cursor.x + n) (p.grid.size.1 - 1) } } }
  else if c = 'D' then
    let n := (params[0]?).getD 1
    some { p with grid := { p.grid with
      cursor := { p.grid.cursor with x := p.grid.cursor.x - n } } }
  else if c = 'K' then
    (if (params[0]?).getD 0 = 0 then
      clearCellsInRow p.grid p.grid.cursor.y
        (List.range' p.grid.cursor.x (p.grid.size.1 - p.grid.cursor.x))
    else if (params[0]?).getD 0 = 1 then
      clearCellsInRow p.grid p.grid.cursor.y (List.range (p.grid.cursor.x + 1))
    else if (params[0]?).getD 0 = 2 then
      p.grid.clear_line p.grid.cursor.y
    else
      some p.grid) >>= fun g =>
    (vecSet g.dirty_lines g.cursor.y true) >>= fun dirty =>
    some { p with grid := { g with dirty_lines := dirty } }
  else if c = 'J' then
    (if (params[0]?).getD 0 = 0 then
      clearCellsInRow p.grid p.grid.cursor.y
        (List.range' p.grid.cursor.x (p.grid.size.1 - p.grid.cursor.x)) >>= fun g =>
      clearLines g (List.range' (p.grid.cursor.y + 1) (p.grid.size.2 - (p.grid.cursor.y + 1)))
    else if (params[0]?).getD 0 = 1 then
      clearLines p.grid (List.range p.grid.cursor.y) >>= fun g =>
      clearCellsInRow g p.grid.cursor.y (List.range (p.grid.cursor.x + 1))
    else if (params[0]?).getD 0 = 2 then
      clearLines p.grid (List.range p.grid.size.2) >>= fun g =>
      some { g with cursor := { x := 0, y := 0, visible := true } }
    else
      some p.grid) >>= fun g =>
    some { p with grid := g }
  else if c = 'm' then
    some (p.applySgr params)
  else
    some p

/-- Rust `Perform::osc_dispatch` (lines 421-429), at the level of the already
UTF-8-decoded parameter strings: only a first parameter equal to `"0"` with a
second parameter present sets the title. -/
def TerminalPerformer.osc_dispatch (p : TerminalPerformer)
    (params : List String) : TerminalPerformer :=
  match params with
  | p0 :: p1 :: _ =>
    if p0 = "0" then { p with grid := { p.grid with title := p1 } } else p
  | _ => p

/-- Modelled from the spec: the byte-driven parser state of the external `vte`
crate, `Ground | Escape | Csi(collected params) | Osc(collected string)`
(spec sections 3 and 4.2).  The `Csi` state keeps the completed
semicolon-separated integers plus the digits of the parameter currently being
read; `oscEsc` is the intermediate state after `ESC` inside an OSC string,
ahead of the `ST` terminator `ESC \`. -/
inductive ParserState
  | ground
  | escape
  | csi (collected : List Nat) (cur : Option Nat)
  | osc (buf : String)
  | oscEsc (buf : String)
deriving DecidableEq

/-- Interpreter state: parser state plus performer (pen and grid). -/
structure InterpState where
  parser : ParserState
  perf : TerminalPerformer
deriving DecidableEq

/-- Modelled from the spec: one byte of `Parser::advance` (the external `vte`
crate), dispatching to the performer callbacks embedded above (spec section
4.2): printables print, C0 bytes execute, `ESC [` starts a CSI whose
parameters are semicolon-separated integers, a final byte in `0x40..=0x7E`
dispatches and returns to Ground, `ESC ]` collects an OSC string until
`BEL`/`ST` whose payload is split on `;`. -/
def advance : InterpState → Nat → Option InterpState
  | ⟨.ground, perf⟩, b =>
    if b = 0x1B then some ⟨.escape, perf⟩
    else if b < 0x20 then
      perf.execute b >>= fun perf' => some ⟨.ground, perf'⟩
    else if b = 0x7F then some ⟨.ground, perf⟩
    else
      perf.print (Char.ofNat b) >>= fun perf' => some ⟨.ground, perf'⟩
  | ⟨.escape, perf⟩, b =>
    if b = 0x5B then some ⟨.csi [] none, perf⟩
    else if b = 0x5D then some ⟨.osc "", perf⟩
    else some ⟨.ground, perf⟩
  | ⟨.csi collected cur, perf⟩, b =>
    if 0x30 ≤ b ∧ b ≤ 0x39 then
      some ⟨.csi collected (some (cur.getD 0 * 10 + (b - 0x30))), perf⟩
    else if b = 0x3B then
      some ⟨.csi (collected ++ [cur.getD 0]) none, perf⟩
    else if 0x40 ≤ b ∧ b ≤ 0x7E then
      perf.csi_dispatch (collected ++ cur.toList) (Char.ofNat b) >>= fun perf' =>
      some ⟨.ground, perf'⟩
    else
      some ⟨.csi collected cur, perf⟩
  | ⟨.osc buf, perf⟩, b =>
    if b = 0x07 then
      some ⟨.ground, perf.osc_dispatch (buf.splitOn ";")⟩
    else if b = 0x1B then
      some ⟨.oscEsc buf, perf⟩
    else
      some ⟨.osc (buf.push (Char.ofNat b)), perf⟩
  | ⟨.oscEsc buf, perf⟩, b =>
    if b = 0x5C then
      some ⟨.ground, perf.osc_dispatch (buf.splitOn ";")⟩
    else
      some ⟨.ground, perf⟩

/-- Feed a byte list through `advance`. -/
def processBytes (s : InterpState) : List Nat → Option InterpState
  | [] => some s
  | b :: bs => advance s b >>= fun s' => processBytes s' bs

/-- The interpreter state the engine starts from: fresh grid, default colors,
pen initialised by `TerminalPerformer::new`, parser at Ground
(`TerminalActor::new` uses `TerminalGrid::new(80, 24)`). -/
def initState (cols rows : Nat) : InterpState :=
  { parser := .ground
    perf := TerminalPerformer.new (TerminalGrid.new cols rows) TerminalColors.default }

/-- Read cell `(x, y)` of a grid. -/
def TerminalGrid.cellAt (g : TerminalGrid) (x y : Nat) : Option TerminalCell :=
  g.cells[y]?.bind fun row => row[x]?

/-- The egui keys matched by the two input paths of `TerminalActor`. -/
inductive EguiKey
  | enter
  | backspace
  | tab
  | arrowUp
  | arrowDown
  | arrowLeft
  | arrowRight
  | keyC
  | keyD
  | keyZ
  | keyL
  | otherKey
deriving DecidableEq

/-- The `modifiers.ctrl` flag consulted by both key-input paths. -/
structure Modifiers where
  ctrl : Bool
deriving DecidableEq

/-- The `ActorMessage::KeyEvent` arm of `TerminalActor::handle_message`
(lines 561-575): the string written to the PTY, `none` when the match falls
through. -/
def handleMessageKey (key : EguiKey) (modifiers : Modifiers) : Option String :=
  match key with
  | .enter => some "\r"
  | .backspace => some "\x08"
  | .tab => some "\t"
  | .arrowUp => some "\x1b[A"
  | .arrowDown => some "\x1b[B"
  | .arrowLeft => some "\x1b[D"
  | .arrowRight => some "\x1b[C"
  | .keyC => if modifiers.ctrl then some "\x03" else none
  | .keyD => if modifiers.ctrl then some "\x04" else none
  | .keyZ => if modifiers.ctrl then some "\x1a" else none
  | .keyL => if modifiers.ctrl then some "\x0c" else none
  | .otherKey => none

/-- The `egui::Event::Key` arm inside `TerminalActor::render` (lines 616-631):
the string pushed to `input_events` and then written to the PTY. -/
def renderInputKey (key : EguiKey) (modifiers : Modifiers) : Option String :=
  match key with
  | .enter => some "\r"
  | .backspace => some "\x7f"
  | .tab => some "\t"
  | .arrowUp => some "\x1b[A"
  | .arrowDown => some "\x1b[B"
  | .arrowLeft => some "\x1b[D"
  | .arrowRight => some "\x1b[C"
  | .keyC => if modifiers.ctrl then some "\x03" else none
  | .keyD => if modifiers.ctrl then some "\x04" else none
  | .keyZ => if modifiers.ctrl then some "\x1a" else none
  | .keyL => if modifiers.ctrl then some "\x0c" else none
  | .otherKey => none

/-- Outcomes of the calls `TerminalActor::spawn_shell` makes into the PTY
layer (`openpty`, `spawn_command`, `try_clone_reader`, `take_writer`). -/
structure PtyEnv where
  openpty_ok : Bool
  spawn_ok : Bool
  clone_reader_ok : Bool
  take_writer_ok : Bool
deriving DecidableEq

/-- How `TerminalActor::new` can end.  `spawnErrorReturned` is the spec's
notion of a `SpawnError` handed back to the caller as a value; it is included
so the claim can be stated, and the embedded constructor never produces it
(`new` has return type `Self` and `spawn_shell` uses `.expect`, which
panics). -/
inductive CtorResult
  | actor
  | panicked (msg : String)
  | spawnErrorReturned (msg : String)
deriving DecidableEq

/-- Rust `TerminalActor::spawn_shell` (lines 466-511): each fallible PTY call is
unwrapped with `.expect(msg)`, so the first failure panics with that
message. -/
def spawn_shell (env : PtyEnv) : Except String Unit :=
  if !env.openpty_ok then .error "Failed to open PTY"
  else if !env.spawn_ok then .error "Failed to spawn shell"
  else if !env.clone_reader_ok then .error "Failed to clone reader"
  else if !env.take_writer_ok then .error "Failed to get writer"
  else .ok ()

/-- Rust `TerminalActor::new` (lines 437-464): builds the actor then calls
`spawn_shell`; a PTY failure therefore panics out of the constructor, and no
error value is ever returned. -/
def TerminalActor.new (env : PtyEnv) : CtorResult :=
  match spawn_shell env with
  | .ok () => .actor
  | .error msg => .panicked msg

/-- Structural and cursor well-formedness of a grid, as maintained by the
program when created with positive dimensions: stored size matches the actual
buffer shape, dimensions are positive, and the cursor is strictly inside. -/
def GridOk (g : TerminalGrid) : Prop :=
  g.cells.length = g.size.2 ∧
  (∀ row ∈ g.cells, row.length = g.size.1) ∧
  g.dirty_lines.length = g.size.2 ∧
  0 < g.size.1 ∧ 0 < g.size.2 ∧
  g.cursor.x < g.size.1 ∧ g.cursor.y < g.size.2

instance (g : TerminalGrid) : Decidable (GridOk g) := by
  unfold GridOk; infer_instance

/-- Every dirty flag set: true of every grid this program ever builds (flags
are only ever written `true`). -/
def AllDirty (g : TerminalGrid) : Prop := ∀ b ∈ g.dirty_lines, b = true

instance (g : TerminalGrid) : Decidable (AllDirty g) := by
  unfold AllDirty; infer_instance

/-- A cell carries none of the italic, underline, strikethrough flags. -/
def cellOff (cell : TerminalCell) : Prop :=
  cell.italic = false ∧ cell.underline = false ∧ cell.strikethrough = false

instance (cell : TerminalCell) : Decidable (cellOff cell) := by
  unfold cellOff; infer_instance

/-- No cell of the grid carries the italic, underline or strikethrough flag. -/
def StylesOff (g : TerminalGrid) : Prop :=
  ∀ row ∈ g.cells, ∀ cell ∈ row, cellOff cell

instance (g : TerminalGrid) : Decidable (StylesOff g) := by
  unfold StylesOff; infer_instance

/-- The operations a caller or the reader loop can apply to the engine state:
the `TerminalGrid` mutators plus feeding raw bytes through the interpreter. -/
inductive EngineOp
  | put_char (ch : Char) (fg bg : Color32) (bold : Bool)
  | move_cursor (x y : Nat)
  | clear_line (y : Nat)
  | scroll_up (n : Nat)
  | resize (cols rows : Nat)
  | feed (bytes : List Nat)

/-- Apply one `EngineOp` to the interpreter state. -/
def applyOp (s : InterpState) : EngineOp → Option InterpState
  | .put_char ch fg bg bold => do
    let g ← s.perf.grid.put_char ch fg bg bold
    some { s with perf := { s.perf with grid := g } }
  | .move_cursor x y =>
    some { s with perf := { s.perf with grid := s.perf.grid.move_cursor x y } }
  | .clear_line y => do
    let g ← s.perf.grid.clear_line y
    some { s with perf := { s.perf with grid := g } }
  | .scroll_up n => do
    let g ← s.perf.grid.scroll_up n
    some { s with perf := { s.perf with grid := g } }
  | .resize cols rows =>
    some { s with perf := { s.perf with grid := s.perf.grid.resize cols rows } }
  | .feed bytes => processBytes s bytes

/-- Apply a sequence of `EngineOp`s. -/
def applyOps (s : InterpState) : List EngineOp → Option InterpState
  | [] => some s
  | op :: ops => applyOp s op >>= fun s' => applyOps s' ops

/-- An operation resizes only to positive dimensions. -/
def posOp : EngineOp → Bool
  | .resize cols rows => decide (0 < cols) && decide (0 < rows)
  | _ => true

/-- Every `resize` in the list has positive dimensions. -/
def posResizes (ops : List EngineOp) : Bool := ops.all posOp

/-- The size an operation leaves the grid with. -/
def opSize (sz : Nat × Nat) : EngineOp → Nat × Nat
  | .resize cols rows => (cols, rows)
  | _ => sz

/-- The size the grid should have after a sequence of operations: the last
applied `resize`, or the starting size if there is none. -/
def expectedSize (sz : Nat × Nat) : List EngineOp → Nat × Nat
  | [] => sz
  | op :: ops => expectedSize (opSize sz op) ops

/-- The CSI final bytes `csi_dispatch` recognizes; any other final byte falls
through to the catch-all arm. -/
def recognizedCsiFinal (c : Char) : Bool :=
  decide (c = 'H' ∨ c = 'f' ∨ c = 'A' ∨ c = 'B' ∨ c = 'C' ∨ c = 'D' ∨
    c = 'K' ∨ c = 'J' ∨ c = 'm')

/-- The SGR parameter values the `'m'` arm recognizes; any other value hits
the catch-all arm and leaves the pen unchanged. -/
def sgrCode (q : Nat) : Bool :=
  decide (q = 0 ∨ q = 1 ∨ q = 22 ∨ (30 ≤ q ∧ q ≤ 37) ∨ q = 39 ∨
    (40 ≤ q ∧ q ≤ 47) ∨ q = 49 ∨ (90 ≤ q ∧ q ≤ 97))

/-- A 2x2 grid holding "AB"/"CD" with otherwise default cells, used to
exercise `resize`. -/
def gridAB : TerminalGrid :=
  { cells := [[{ TerminalCell.default with ch := 'A' },
               { TerminalCell.default with ch := 'B' }],
              [{ TerminalCell.default with ch := 'C' },
               { TerminalCell.default with ch := 'D' }]]
    cursor := { x := 0, y := 0, visible := true }
    size := (2, 2)
    title := "Terminal"
    dirty_lines := [true, true] }

/-! ### Helper lemmas: successful evaluation and invariant preservation -/

theorem vecSet_eq {α : Type} {l : List α} {i : Nat} (x : α) (h : i < l.length) :
    vecSet l i x = some (l.set i x) := by
  simp [vecSet, h]

theorem vecSet_inv {α : Type} {l l' : List α} {i : Nat} {x : α}
    (h : vecSet l i x = some l') : i < l.length ∧ l' = l.set i x := by
  unfold vecSet at h
  split at h
  · exact ⟨by assumption, (Option.some.inj h).symm⟩
  · cases h

theorem list_set_self {α : Type} :
    ∀ (l : List α) (i : Nat) (a : α), l[i]? = some a → l.set i a = l := by
  intro l
  induction l with
  | nil => intro i a h; simp at h
  | cons x xs ih =>
    intro i a h
    cases i with
    | zero => simp at h; simp [h]
    | succ n => simp at h ⊢; exact ih n a h

theorem cellOff_default : cellOff TerminalCell.default := ⟨rfl, rfl, rfl⟩

theorem stylesOff_cells_set {cells : List (List TerminalCell)} {y x : Nat}
    {row : List TerminalCell} {v : TerminalCell}
    (hrowmem : row ∈ cells) (hv : cellOff v)
    (hall : ∀ r ∈ cells, ∀ cell ∈ r, cellOff cell) :
    ∀ r ∈ cells.set y (row.set x v), ∀ cell ∈ r, cellOff cell := by
  intro r hmem cell hcell
  rcases List.mem_or_eq_of_mem_set hmem with h | h
  · exact hall r h cell hcell
  · subst h
    rcases List.mem_or_eq_of_mem_set hcell with h2 | h2
    · exact hall row hrowmem cell h2
    · subst h2
      exact hv

theorem stylesOff_set_of_off {cells : List (List TerminalCell)} {y : Nat}
    {row' : List TerminalCell}
    (hrow' : ∀ cell ∈ row', cellOff cell)
    (hall : ∀ r ∈ cells, ∀ cell ∈ r, cellOff cell) :
    ∀ r ∈ cells.set y row', ∀ cell ∈ r, cellOff cell := by
  intro r hmem cell hcell
  rcases List.mem_or_eq_of_mem_set hmem with h | h
  · exact hall r h cell hcell
  · subst h
    exact hrow' cell hcell

theorem stylesOff_new (cols rows : Nat) : StylesOff (TerminalGrid.new cols rows) := by
  intro row hmem cell hcell
  simp only [TerminalGrid.new] at hmem
  rw [List.eq_of_mem_replicate hmem] at hcell
  rw [List.eq_of_mem_replicate hcell]
  exact cellOff_default

theorem GridOk_new {cols rows : Nat} (hc : 0 < cols) (hr : 0 < rows) :
    GridOk (TerminalGrid.new cols rows) := by
  refine ⟨by simp [TerminalGrid.new], ?_, by simp [TerminalGrid.new], hc, hr, hc, hr⟩
  intro row hmem
  simp only [TerminalGrid.new] at hmem
  rw [List.eq_of_mem_replicate hmem]
  simp [TerminalGrid.new]

theorem put_char_ok {g : TerminalGrid} (ch : Char) (fg bg : Color32) (bold : Bool)
    (hg : GridOk g) :
    ∃ g', g.put_char ch fg bg bold = some g' ∧ GridOk g' ∧
      g'.size = g.size ∧ g'.cursor = g.cursor ∧
      (StylesOff g → StylesOff g') := by
  obtain ⟨hc, hrow, hd, hC, hR, hx, hy⟩ := hg
  have hylen : g.cursor.y < g.cells.length := by rw [hc]; exact hy
  have hrowlen : (g.cells.get ⟨g.cursor.y, hylen⟩).length = g.size.1 :=
    hrow _ (List.get_mem _ _ _)
  have hdlen : g.cursor.y < g.dirty_lines.length := by rw [hd]; exact hy
  unfold TerminalGrid.put_char setCell
  rw [if_pos ⟨hy, hx⟩]
  rw [show g.cells[g.cursor.y]? = some (g.cells.get ⟨g.cursor.y, hylen⟩) from
    List.getElem?_eq_getElem hylen]
  simp only [Option.bind_eq_bind, Option.some_bind]
  rw [vecSet_eq _ (by rw [hrowlen]; exact hx)]
  simp only [Option.some_bind]
  rw [vecSet_eq _ hylen]
  simp only [Option.some_bind]
  rw [vecSet_eq _ hdlen]
  simp only [Option.some_bind]
  refine ⟨_, rfl, ⟨?_, ?_, ?_, hC, hR, hx, hy⟩, rfl, rfl, ?_⟩
  · simpa using hc
  · intro row hmem
    rcases List.mem_or_eq_of_mem_set hmem with h | h
    · exact hrow _ h
    · subst h; rw [List.length_set]; exact hrowlen
  · simpa using hd
  · intro hsty
    exact stylesOff_cells_set (List.get_mem _ _ _) ⟨rfl, rfl, rfl⟩ hsty

theorem move_cursor_ok {g : TerminalGrid} (x y : Nat) (hg : GridOk g) :
    GridOk (g.move_cursor x y) ∧ (g.move_cursor x y).size = g.size ∧
      (StylesOff g → StylesOff (g.move_cursor x y)) := by
  obtain ⟨hc, hrow, hd, hC, hR, hx, hy⟩ := hg
  refine ⟨⟨hc, hrow, hd, hC, hR, ?_, ?_⟩, rfl, fun hsty => hsty⟩
  · simp only [TerminalGrid.move_cursor]; omega
  · simp only [TerminalGrid.move_cursor]; omega

theorem clear_line_ok {g : TerminalGrid} (y : Nat) (hg : GridOk g) :
    ∃ g', g.clear_line y = some g' ∧ GridOk g' ∧
      g'.size = g.size ∧ g'.cursor = g.cursor ∧
      (StylesOff g → StylesOff g') := by
  obtain ⟨hc, hrow, hd, hC, hR, hx, hy⟩ := hg
  unfold TerminalGrid.clear_line
  by_cases hcase : y < g.size.2
  · rw [if_pos hcase]
    have hylen : y < g.cells.length := by rw [hc]; exact hcase
    have hdlen : y < g.dirty_lines.length := by rw [hd]; exact hcase
    rw [show g.cells[y]? = some (g.cells.get ⟨y, hylen⟩) from
      List.getElem?_eq_getElem hylen]
    simp only [Option.bind_eq_bind, Option.some_bind]
    rw [vecSet_eq _ hylen]
    simp only [Option.some_bind]
    rw [vecSet_eq _ hdlen]
    simp only [Option.some_bind]
    refine ⟨_, rfl, ⟨?_, ?_, ?_, hC, hR, hx, hy⟩, rfl, rfl, ?_⟩
    · simpa using hc
    · intro row hmem
      rcases List.mem_or_eq_of_mem_set hmem with h | h
      · exact hrow _ h
      · subst h
        rw [List.length_map]
        exact hrow _ (List.get_mem _ _ _)
    · simpa using hd
    · intro hsty
      refine stylesOff_set_of_off ?_ hsty
      intro cell hcell
      rcases List.mem_map.mp hcell with ⟨a, ha, hdef⟩
      rw [← hdef]
      exact cellOff_default
  · rw [if_neg hcase]
    exact ⟨g, rfl, ⟨hc, hrow, hd, hC, hR, hx, hy⟩, rfl, rfl, fun hsty => hsty⟩

theorem scrollUpOnce_ok {g : TerminalGrid} (hg : GridOk g) :
    ∃ g', scrollUpOnce g = some g' ∧ GridOk g' ∧
      g'.size = g.size ∧ g'.cursor = g.cursor ∧ g'.dirty_lines = g.dirty_lines ∧
      (StylesOff g → StylesOff g') := by
  obtain ⟨hc, hrow, hd, hC, hR, hx, hy⟩ := hg
  unfold scrollUpOnce
  match hcells : g.cells with
  | [] => rw [hcells] at hc; simp at hc; omega
  | r :: rest =>
    refine ⟨_, rfl, ⟨?_, ?_, hd, hC, hR, hx, hy⟩, rfl, rfl, rfl, ?_⟩
    · have := hc
      rw [hcells] at this
      simp at this ⊢
      omega
    · intro row hmem
      simp only [List.mem_append, List.mem_singleton] at hmem
      rcases hmem with h | h
      · exact hrow _ (by rw [hcells]; exact List.mem_cons_of_mem _ h)
      · subst h; simp
    · intro hsty row hmem cell hcell
      simp only [List.mem_append, List.mem_singleton] at hmem
      rcases hmem with h | h
      · exact hsty row (by rw [hcells]; exact List.mem_cons_of_mem _ h) cell hcell
      · subst h
        rw [List.eq_of_mem_replicate hcell]
        exact cellOff_default

theorem iterOpt_ok {α : Type} {P : α → Prop} {f : α → Option α}
    (hstep : ∀ a, P a → ∃ b, f a = some b ∧ P b) :
    ∀ (n : Nat) (a : α), P a → ∃ b, iterOpt f n a = some b ∧ P b := by
  intro n
  induction n with
  | zero => intro a ha; exact ⟨a, rfl, ha⟩
  | succ m ih =>
    intro a ha
    obtain ⟨b, hb, hPb⟩ := hstep a ha
    obtain ⟨c, hc, hPc⟩ := ih b hPb
    refine ⟨c, ?_, hPc⟩
    simp only [iterOpt, hb, Option.bind_eq_bind, Option.some_bind]
    exact hc

theorem scroll_up_ok {g : TerminalGrid} (n : Nat) (hg : GridOk g) :
    ∃ g', g.scroll_up n = some g' ∧ GridOk g' ∧
      g'.size = g.size ∧ g'.cursor = g.cursor ∧
      (StylesOff g → StylesOff g') := by
  have key := iterOpt_ok
    (P := fun h => GridOk h ∧ h.size = g.size ∧ h.cursor = g.cursor ∧
      (StylesOff g → StylesOff h))
    (f := scrollUpOnce) ?_ n g ⟨hg, rfl, rfl, fun hsty => hsty⟩
  · obtain ⟨g1, hg1, hok, hsz, hcur, hsty1⟩ := key
    refine ⟨{ g1 with dirty_lines := g1.dirty_lines.map fun x => true }, ?_, ?_, hsz, hcur, hsty1⟩
    · unfold TerminalGrid.scroll_up
      rw [hg1]
      simp only [Option.bind_eq_bind, Option.some_bind]
    · obtain ⟨hc, hrow, hd, hC, hR, hx, hy⟩ := hok
      exact ⟨hc, hrow, by simpa using hd, hC, hR, hx, hy⟩
  · rintro a ⟨hok, hsz, hcur, hstya⟩
    obtain ⟨b, hb, hokb, hszb, hcurb, _, hstyb⟩ := scrollUpOnce_ok hok
    exact ⟨b, hb, hokb, by rw [hszb, hsz], by rw [hcurb, hcur],
      fun hsty => hstyb (hstya hsty)⟩

theorem length_listResize {α : Type} (l : List α) (n : Nat) (v : α) :
    (listResize l n v).length = n := by
  simp only [listResize, List.length_append, List.length_take, List.length_replicate]
  omega

theorem resize_ok {g : TerminalGrid} {cols rows : Nat}
    (hcols : 0 < cols) (hrows : 0 < rows) (hg : GridOk g) :
    GridOk (g.resize cols rows) ∧ (g.resize cols rows).size = (cols, rows) := by
  obtain ⟨hc, hrow, hd, hC, hR, hx, hy⟩ := hg
  refine ⟨⟨?_, ?_, ?_, hcols, hrows, ?_, ?_⟩, rfl⟩
  · simp only [TerminalGrid.resize]
    split
    · simp only [List.length_append, List.length_map, List.length_replicate, hc]
      omega
    · simp only [List.length_take, List.length_map, hc]
      omega
  · intro row hmem
    simp only [TerminalGrid.resize] at hmem ⊢
    split at hmem
    · rcases List.mem_append.mp hmem with h | h
      · rcases List.mem_map.mp h with ⟨r, hr, hres⟩
        rw [← hres]
        exact length_listResize _ _ _
      · rw [List.eq_of_mem_replicate h]
        exact List.length_replicate _ _
    · rcases List.mem_map.mp (List.mem_of_mem_take hmem) with ⟨r, hr, hres⟩
      rw [← hres]
      exact length_listResize _ _ _
  · simp only [TerminalGrid.resize]
    exact length_listResize _ _ _
  · simp only [TerminalGrid.resize]
    omega
  · simp only [TerminalGrid.resize]
    omega

theorem clearCellsInRow_ok {g : TerminalGrid} {y : Nat} {xs : List Nat}
    (hg : GridOk g) (hy : y < g.size.2) (hxs : ∀ x ∈ xs, x < g.size.1) :
    ∃ g', clearCellsInRow g y xs = some g' ∧ GridOk g' ∧
      g'.size = g.size ∧ g'.cursor = g.cursor ∧ g'.dirty_lines = g.dirty_lines ∧
      (StylesOff g → StylesOff g') := by
  induction xs generalizing g with
  | nil => exact ⟨g, rfl, hg, rfl, rfl, rfl, fun hsty => hsty⟩
  | cons x xs ih =>
    obtain ⟨hc, hrow, hd, hC, hR, hcx, hcy⟩ := hg
    have hylen : y < g.cells.length := by rw [hc]; exact hy
    have hrowlen : (g.cells.get ⟨y, hylen⟩).length = g.size.1 :=
      hrow _ (List.get_mem _ _ _)
    have hx : x < g.size.1 := hxs x (List.mem_cons_self x xs)
    unfold clearCellsInRow setCell
    rw [show g.cells[y]? = some (g.cells.get ⟨y, hylen⟩) from
      List.getElem?_eq_getElem hylen]
    simp only [Option.bind_eq_bind, Option.some_bind]
    rw [vecSet_eq _ (by rw [hrowlen]; exact hx)]
    simp only [Option.some_bind]
    rw [vecSet_eq _ hylen]
    simp only [Option.some_bind]
    have hok' : GridOk { g with cells := g.cells.set y ((g.cells.get ⟨y, hylen⟩).set x TerminalCell.default) } := by
      refine ⟨by simpa using hc, ?_, hd, hC, hR, hcx, hcy⟩
      intro row hmem
      rcases List.mem_or_eq_of_mem_set hmem with h | h
      · exact hrow _ h
      · subst h; rw [List.length_set]; exact hrowlen
    obtain ⟨g', hg', hok'', hsz, hcur, hdirty, hsty'⟩ :=
      ih hok' hy (fun z hz => hxs z (List.mem_cons_of_mem _ hz))
    refine ⟨g', hg', hok'', hsz, hcur, hdirty, ?_⟩
    intro hsty
    refine hsty' ?_
    exact stylesOff_cells_set (List.get_mem _ _ _) cellOff_default hsty

theorem clearLines_ok {g : TerminalGrid} {ys : List Nat} (hg : GridOk g) :
    ∃ g', clearLines g ys = some g' ∧ GridOk g' ∧
      g'.size = g.size ∧ g'.cursor = g.cursor ∧
      (StylesOff g → StylesOff g') := by
  induction ys generalizing g with
  | nil => exact ⟨g, rfl, hg, rfl, rfl, fun hsty => hsty⟩
  | cons y ys ih =>
    obtain ⟨g1, hg1, hok1, hsz1, hcur1, hsty1⟩ := clear_line_ok y hg
    obtain ⟨g2, hg2, hok2, hsz2, hcur2, hsty2⟩ := ih hok1
    refine ⟨g2, ?_, hok2, by rw [hsz2, hsz1], by rw [hcur2, hcur1],
      fun hsty => hsty2 (hsty1 hsty)⟩
    unfold clearLines
    rw [hg1]
    simp only [Option.bind_eq_bind, Option.some_bind]
    exact hg2

set_option maxHeartbeats 1600000 in
theorem csi_dispatch_ok (p : TerminalPerformer) (params : List Nat) (c : Char)
    (hg : GridOk p.grid) :
    ∃ p', p.csi_dispatch params c = some p' ∧ GridOk p'.grid ∧
      p'.grid.size = p.grid.size ∧
      (StylesOff p.grid → StylesOff p'.grid) := by
  obtain ⟨hc, hrow, hd, hC, hR, hx, hy⟩ := hg
  have hg' : GridOk p.grid := ⟨hc, hrow, hd, hC, hR, hx, hy⟩
  unfold TerminalPerformer.csi_dispatch
  by_cases hHf : c = 'H' ∨ c = 'f'
  · rw [if_pos hHf]
    obtain ⟨hok, hsz, hsty⟩ :=
      move_cursor_ok ((params[1]?).getD 1 - 1) ((params[0]?).getD 1 - 1) hg'
    exact ⟨_, rfl, hok, hsz, hsty⟩
  rw [if_neg hHf]
  by_cases hA : c = 'A'
  · rw [if_pos hA]
    exact ⟨_, rfl, ⟨hc, hrow, hd, hC, hR, hx, by simp only []; omega⟩, rfl,
      fun hsty => hsty⟩
  rw [if_neg hA]
  by_cases hB : c = 'B'
  · rw [if_pos hB]
    exact ⟨_, rfl, ⟨hc, hrow, hd, hC, hR, hx, by simp only []; omega⟩, rfl,
      fun hsty => hsty⟩
  rw [if_neg hB]
  by_cases hCc : c = 'C'
  · rw [if_pos hCc]
    exact ⟨_, rfl, ⟨hc, hrow, hd, hC, hR, by simp only []; omega, hy⟩, rfl,
      fun hsty => hsty⟩
  rw [if_neg hCc]
  by_cases hD : c = 'D'
  · rw [if_pos hD]
    exact ⟨_, rfl, ⟨hc, hrow, hd, hC, hR, by simp only []; omega, hy⟩, rfl,
      fun hsty => hsty⟩
  rw [if_neg hD]
  by_cases hK : c = 'K'
  · rw [if_pos hK]
    have hclear : ∃ g', (if (params[0]?).getD 0 = 0 then
          clearCellsInRow p.grid p.grid.cursor.y
            (List.range' p.grid.cursor.x (p.grid.size.1 - p.grid.cursor.x))
        else if (params[0]?).getD 0 = 1 then
          clearCellsInRow p.grid p.grid.cursor.y (List.range (p.grid.cursor.x + 1))
        else if (params[0]?).getD 0 = 2 then
          p.grid.clear_line p.grid.cursor.y
        else some p.grid) = some g' ∧ GridOk g' ∧
        g'.size = p.grid.size ∧ g'.cursor = p.grid.cursor ∧
        (StylesOff p.grid → StylesOff g') := by
      split_ifs
      · have hbound : ∀ z ∈ List.range' p.grid.cursor.x (p.grid.size.1 - p.grid.cursor.x),
            z < p.grid.size.1 := by
          intro z hz
          rw [List.mem_range'] at hz
          obtain ⟨i, hi, hzi⟩ := hz
          omega
        obtain ⟨g', h1, h2, h3, h4, h5, h6⟩ := clearCellsInRow_ok hg' hy hbound
        exact ⟨g', h1, h2, h3, h4, h6⟩
      · have hbound : ∀ z ∈ List.range (p.grid.cursor.x + 1), z < p.grid.size.1 := by
          intro z hz
          rw [List.mem_range] at hz
          omega
        obtain ⟨g', h1, h2, h3, h4, h5, h6⟩ := clearCellsInRow_ok hg' hy hbound
        exact ⟨g', h1, h2, h3, h4, h6⟩
      · exact clear_line_ok _ hg'
      · exact ⟨p.grid, rfl, hg', rfl, rfl, fun hsty => hsty⟩
    obtain ⟨g', hgeq, hok', hsz', hcur', hstyK⟩ := hclear
    obtain ⟨hc', hrow', hd', hC', hR', hx', hy'⟩ := hok'
    rw [hgeq]
    simp only [Option.bind_eq_bind, Option.some_bind]
    rw [vecSet_eq _ (by rw [hd']; exact hy')]
    simp only [Option.some_bind]
    refine ⟨_, rfl, ⟨hc', hrow', by simpa using hd', hC', hR', hx', hy'⟩, hsz', hstyK⟩
  rw [if_neg hK]
  by_cases hJ : c = 'J'
  · rw [if_pos hJ]
    have hclear : ∃ g', (if (params[0]?).getD 0 = 0 then
          (clearCellsInRow p.grid p.grid.cursor.y
            (List.range' p.grid.cursor.x (p.grid.size.1 - p.grid.cursor.x))) >>= fun g =>
            clearLines g (List.range' (p.grid.cursor.y + 1) (p.grid.size.2 - (p.grid.cursor.y + 1)))
        else if (params[0]?).getD 0 = 1 then
          (clearLines p.grid (List.range p.grid.cursor.y)) >>= fun g =>
            clearCellsInRow g p.grid.cursor.y (List.range (p.grid.cursor.x + 1))
        else if (params[0]?).getD 0 = 2 then
          (clearLines p.grid (List.range p.grid.size.2)) >>= fun g =>
            some { g with cursor := { x := 0, y := 0, visible := true } }
        else some p.grid) = some g' ∧ GridOk g' ∧ g'.size = p.grid.size ∧
        (StylesOff p.grid → StylesOff g') := by
      split_ifs
      · have hbound : ∀ z ∈ List.range' p.grid.cursor.x (p.grid.size.1 - p.grid.cursor.x),
            z < p.grid.size.1 := by
          intro z hz
          rw [List.mem_range'] at hz
          obtain ⟨i, hi, hzi⟩ := hz
          omega
        obtain ⟨g1, hg1, hok1, hsz1, hcur1, hdl1, hsty1⟩ := clearCellsInRow_ok hg' hy hbound
        obtain ⟨g2, hg2, hok2, hsz2, hcur2, hsty2⟩ := clearLines_ok hok1
        refine ⟨g2, ?_, hok2, by rw [hsz2, hsz1], fun hsty => hsty2 (hsty1 hsty)⟩
        rw [hg1]
        simp only [Option.bind_eq_bind, Option.some_bind]
        exact hg2
      · obtain ⟨g1, hg1, hok1, hsz1, hcur1, hsty1⟩ :=
          @clearLines_ok p.grid (List.range p.grid.cursor.y) hg'
        have hbound : ∀ z ∈ List.range (p.grid.cursor.x + 1), z < g1.size.1 := by
          intro z hz
          rw [List.mem_range] at hz
          rw [hsz1]
          omega
        obtain ⟨g2, hg2, hok2, hsz2, hcur2, hdl2, hsty2⟩ := clearCellsInRow_ok hok1
          (by rw [hsz1]; exact hy) hbound
        refine ⟨g2, ?_, hok2, by rw [hsz2, hsz1], fun hsty => hsty2 (hsty1 hsty)⟩
        rw [hg1]
        simp only [Option.bind_eq_bind, Option.some_bind]
        exact hg2
      · obtain ⟨g1, hg1, hok1, hsz1, hcur1, hsty1⟩ :=
          @clearLines_ok p.grid (List.range p.grid.size.2) hg'
        obtain ⟨hc1, hrow1, hd1, hC1, hR1, hx1, hy1⟩ := hok1
        refine ⟨{ g1 with cursor := { x := 0, y := 0, visible := true } }, ?_,
          ⟨hc1, hrow1, hd1, hC1, hR1, hC1, hR1⟩, hsz1, fun hsty => hsty1 hsty⟩
        rw [hg1]
        simp only [Option.bind_eq_bind, Option.some_bind]
      · exact ⟨p.grid, rfl, hg', rfl, fun hsty => hsty⟩
    obtain ⟨g', hgeq, hok', hsz', hstyJ⟩ := hclear
    rw [hgeq]
    simp only [Option.bind_eq_bind, Option.some_bind]
    exact ⟨_, rfl, hok', hsz', hstyJ⟩
  rw [if_neg hJ]
  by_cases hm : c = 'm'
  · rw [if_pos hm]
    have hpen : ∀ (q : List Nat) (pp : TerminalPerformer), (pp.applySgr q).grid = pp.grid := by
      intro q
      induction q with
      | nil => intro pp; rfl
      | cons a as ih =>
        intro pp
        unfold TerminalPerformer.applySgr at ih ⊢
        rw [List.foldl_cons, ih (pp.applySgrParam a)]
        rfl
    refine ⟨_, rfl, ?_, ?_, ?_⟩
    · rw [hpen]; exact hg'
    · rw [hpen]
    · intro hsty
      rw [hpen]
      exact hsty
  rw [if_neg hm]
  exact ⟨p, rfl, hg', rfl, fun hsty => hsty⟩

theorem print_ok (p : TerminalPerformer) (c : Char) (hg : GridOk p.grid) :
    ∃ p', p.print c = some p' ∧ GridOk p'.grid ∧ p'.grid.size = p.grid.size ∧
      (StylesOff p.grid → StylesOff p'.grid) := by
  obtain ⟨g1, hg1, hok1, hsz1, hcur1, hsty1⟩ :=
    put_char_ok c p.current_fg p.current_bg p.bold hg
  obtain ⟨hc1, hrow1, hd1, hC1, hR1, hx1, hy1⟩ := hok1
  unfold TerminalPerformer.print
  rw [hg1]
  simp only [Option.bind_eq_bind, Option.some_bind]
  by_cases hstep : g1.cursor.x < g1.size.1 - 1
  · rw [if_pos hstep]
    simp only [Option.some_bind]
    refine ⟨_, rfl, ⟨hc1, hrow1, hd1, hC1, hR1, ?_, hy1⟩, hsz1, hsty1⟩
    simp only []
    omega
  rw [if_neg hstep]
  by_cases hstep2 : g1.cursor.y < g1.size.2 - 1
  · rw [if_pos hstep2]
    simp only [Option.some_bind]
    refine ⟨_, rfl, ⟨hc1, hrow1, hd1, hC1, hR1, hC1, ?_⟩, hsz1, hsty1⟩
    simp only []
    omega
  · rw [if_neg hstep2]
    obtain ⟨g2, hg2, hok2, hsz2, hcur2, hsty2⟩ :=
      scroll_up_ok 1 ⟨hc1, hrow1, hd1, hC1, hR1, hx1, hy1⟩
    obtain ⟨hc2, hrow2, hd2, hC2, hR2, hx2, hy2⟩ := hok2
    rw [hg2]
    simp only [Option.some_bind]
    refine ⟨_, rfl, ⟨hc2, hrow2, hd2, hC2, hR2, hC2, hy2⟩, by rw [hsz2, hsz1],
      fun hsty => hsty2 (hsty1 hsty)⟩

theorem execute_ok (p : TerminalPerformer) (byte : Nat) (hg : GridOk p.grid) :
    ∃ p', p.execute byte = some p' ∧ GridOk p'.grid ∧
      p'.grid.size = p.grid.size ∧
      (StylesOff p.grid → StylesOff p'.grid) := by
  obtain ⟨hc, hrow, hd, hC, hR, hx, hy⟩ := hg
  have hg' : GridOk p.grid := ⟨hc, hrow, hd, hC, hR, hx, hy⟩
  unfold TerminalPerformer.execute
  by_cases h10 : byte = 0x0A
  · rw [if_pos h10]
    by_cases hrowlt : p.grid.cursor.y < p.grid.size.2 - 1
    · rw [if_pos hrowlt]
      simp only [Option.bind_eq_bind, Option.some_bind]
      refine ⟨_, rfl, ⟨hc, hrow, hd, hC, hR, hx, ?_⟩, rfl, fun hsty => hsty⟩
      simp only []
      omega
    · rw [if_neg hrowlt]
      obtain ⟨g1, hg1, hok1, hsz1, hcur1, hsty1⟩ := scroll_up_ok 1 hg'
      rw [hg1]
      simp only [Option.bind_eq_bind, Option.some_bind]
      exact ⟨_, rfl, hok1, hsz1, hsty1⟩
  rw [if_neg h10]
  by_cases h13 : byte = 0x0D
  · rw [if_pos h13]
    simp only [Option.bind_eq_bind, Option.some_bind]
    exact ⟨_, rfl, ⟨hc, hrow, hd, hC, hR, hC, hy⟩, rfl, fun hsty => hsty⟩
  rw [if_neg h13]
  by_cases h9 : byte = 0x09
  · rw [if_pos h9]
    simp only [Option.bind_eq_bind, Option.some_bind]
    refine ⟨_, rfl, ⟨hc, hrow, hd, hC, hR, ?_, hy⟩, rfl, fun hsty => hsty⟩
    simp only []
    omega
  rw [if_neg h9]
  by_cases h8 : byte = 0x08
  · rw [if_pos h8]
    by_cases hxpos : p.grid.cursor.x > 0
    · rw [if_pos hxpos]
      simp only [Option.bind_eq_bind, Option.some_bind]
      refine ⟨_, rfl, ⟨hc, hrow, hd, hC, hR, ?_, hy⟩, rfl, fun hsty => hsty⟩
      simp only []
      omega
    · rw [if_neg hxpos]
      simp only [Option.bind_eq_bind, Option.some_bind]
      exact ⟨_, rfl, hg', rfl, fun hsty => hsty⟩
  · rw [if_neg h8]
    simp only [Option.bind_eq_bind, Option.some_bind]
    exact ⟨_, rfl, hg', rfl, fun hsty => hsty⟩

theorem osc_dispatch_ok (p : TerminalPerformer) (params : List String)
    (hg : GridOk p.grid) :
    GridOk (p.osc_dispatch params).grid ∧
      (p.osc_dispatch params).grid.size = p.grid.size ∧
      (StylesOff p.grid → StylesOff (p.osc_dispatch params).grid) := by
  match params with
  | [] => exact ⟨hg, rfl, fun hsty => hsty⟩
  | [p0] => exact ⟨hg, rfl, fun hsty => hsty⟩
  | p0 :: p1 :: rest =>
    simp only [TerminalPerformer.osc_dispatch]
    split_ifs with h0
    · obtain ⟨hc, hrow, hd, hC, hR, hx, hy⟩ := hg
      exact ⟨⟨hc, hrow, hd, hC, hR, hx, hy⟩, rfl, fun hsty => hsty⟩
    · exact ⟨hg, rfl, fun hsty => hsty⟩

theorem advance_ok (s : InterpState) (b : Nat) (hg : GridOk s.perf.grid) :
    ∃ s', advance s b = some s' ∧ GridOk s'.perf.grid ∧
      s'.perf.grid.size = s.perf.grid.size ∧
      (StylesOff s.perf.grid → StylesOff s'.perf.grid) := by
  obtain ⟨parser, perf⟩ := s
  match parser with
  | .ground =>
    simp only [advance]
    by_cases hesc : b = 0x1B
    · rw [if_pos hesc]
      exact ⟨_, rfl, hg, rfl, fun hsty => hsty⟩
    rw [if_neg hesc]
    by_cases hc0 : b < 0x20
    · rw [if_pos hc0]
      obtain ⟨p', hp', hok', hsz', hsty'⟩ := execute_ok perf b hg
      rw [hp']
      simp only [Option.bind_eq_bind, Option.some_bind]
      exact ⟨_, rfl, hok', hsz', hsty'⟩
    rw [if_neg hc0]
    by_cases hdel : b = 0x7F
    · rw [if_pos hdel]
      exact ⟨_, rfl, hg, rfl, fun hsty => hsty⟩
    · rw [if_neg hdel]
      obtain ⟨p', hp', hok', hsz', hsty'⟩ := print_ok perf (Char.ofNat b) hg
      rw [hp']
      simp only [Option.bind_eq_bind, Option.some_bind]
      exact ⟨_, rfl, hok', hsz', hsty'⟩
  | .escape =>
    simp only [advance]
    split_ifs <;> exact ⟨_, rfl, hg, rfl, fun hsty => hsty⟩
  | .csi collected cur =>
    simp only [advance]
    by_cases hdig : 0x30 ≤ b ∧ b ≤ 0x39
    · rw [if_pos hdig]
      exact ⟨_, rfl, hg, rfl, fun hsty => hsty⟩
    rw [if_neg hdig]
    by_cases hsemi : b = 0x3B
    · rw [if_pos hsemi]
      exact ⟨_, rfl, hg, rfl, fun hsty => hsty⟩
    rw [if_neg hsemi]
    by_cases hfin : 0x40 ≤ b ∧ b ≤ 0x7E
    · rw [if_pos hfin]
      obtain ⟨p', hp', hok', hsz', hsty'⟩ :=
        csi_dispatch_ok perf (collected ++ cur.toList) (Char.ofNat b) hg
      rw [hp']
      simp only [Option.bind_eq_bind, Option.some_bind]
      exact ⟨_, rfl, hok', hsz', hsty'⟩
    · rw [if_neg hfin]
      exact ⟨_, rfl, hg, rfl, fun hsty => hsty⟩
  | .osc buf =>
    simp only [advance]
    obtain ⟨hok', hsz', hsty'⟩ := osc_dispatch_ok perf (buf.splitOn ";") hg
    split_ifs <;>
      exact ⟨_, rfl, by first | exact hok' | exact hg,
        by first | exact hsz' | rfl,
        by first | exact hsty' | exact fun hsty => hsty⟩
  | .oscEsc buf =>
    simp only [advance]
    obtain ⟨hok', hsz', hsty'⟩ := osc_dispatch_ok perf (buf.splitOn ";") hg
    split_ifs <;>
      exact ⟨_, rfl, by first | exact hok' | exact hg,
        by first | exact hsz' | rfl,
        by first | exact hsty' | exact fun hsty => hsty⟩

theorem processBytes_ok (bytes : List Nat) :
    ∀ (s : InterpState), GridOk s.perf.grid →
    ∃ s', processBytes s bytes = some s' ∧ GridOk s'.perf.grid ∧
      s'.perf.grid.size = s.perf.grid.size ∧
      (StylesOff s.perf.grid → StylesOff s'.perf.grid) := by
  induction bytes with
  | nil => intro s hg; exact ⟨s, rfl, hg, rfl, fun hsty => hsty⟩
  | cons b bs ih =>
    intro s hg
    obtain ⟨s1, hs1, hok1, hsz1, hsty1⟩ := advance_ok s b hg
    obtain ⟨s2, hs2, hok2, hsz2, hsty2⟩ := ih s1 hok1
    refine ⟨s2, ?_, hok2, by rw [hsz2, hsz1], fun hsty => hsty2 (hsty1 hsty)⟩
    unfold processBytes
    rw [hs1]
    simp only [Option.bind_eq_bind, Option.some_bind]
    exact hs2

theorem applyOp_ok (s : InterpState) (op : EngineOp)
    (hg : GridOk s.perf.grid) (hpos : posOp op = true) :
    ∃ s', applyOp s op = some s' ∧ GridOk s'.perf.grid ∧
      s'.perf.grid.size = opSize s.perf.grid.size op := by
  cases op with
  | put_char ch fg bg bold =>
    obtain ⟨g', hgeq, hok, hsz, hcur, hsty⟩ := put_char_ok ch fg bg bold hg
    refine ⟨⟨s.parser, { s.perf with grid := g' }⟩, ?_, hok, hsz⟩
    simp only [applyOp]
    rw [hgeq]
    simp only [Option.bind_eq_bind, Option.some_bind]
  | move_cursor x y =>
    obtain ⟨hok, hsz, hsty⟩ := move_cursor_ok x y hg
    exact ⟨_, rfl, hok, hsz⟩
  | clear_line y =>
    obtain ⟨g', hgeq, hok, hsz, hcur, hsty⟩ := clear_line_ok y hg
    refine ⟨⟨s.parser, { s.perf with grid := g' }⟩, ?_, hok, hsz⟩
    simp only [applyOp]
    rw [hgeq]
    simp only [Option.bind_eq_bind, Option.some_bind]
  | scroll_up n =>
    obtain ⟨g', hgeq, hok, hsz, hcur, hsty⟩ := scroll_up_ok n hg
    refine ⟨⟨s.parser, { s.perf with grid := g' }⟩, ?_, hok, hsz⟩
    simp only [applyOp]
    rw [hgeq]
    simp only [Option.bind_eq_bind, Option.some_bind]
  | resize cols rows =>
    simp only [posOp, Bool.and_eq_true, decide_eq_true_eq] at hpos
    obtain ⟨hok, hsz⟩ := resize_ok hpos.1 hpos.2 hg
    exact ⟨_, rfl, hok, hsz⟩
  | feed bytes =>
    obtain ⟨s', hs', hok, hsz, hsty⟩ := processBytes_ok bytes s hg
    exact ⟨s', hs', hok, hsz⟩

theorem applyOps_ok (ops : List EngineOp) :
    ∀ (s : InterpState), GridOk s.perf.grid → posResizes ops = true →
    ∃ s', applyOps s ops = some s' ∧ GridOk s'.perf.grid ∧
      s'.perf.grid.size = expectedSize s.perf.grid.size ops := by
  induction ops with
  | nil => intro s hg hp; exact ⟨s, rfl, hg, rfl⟩
  | cons op ops ih =>
    intro s hg hpos
    rw [posResizes, List.all_cons, Bool.and_eq_true] at hpos
    obtain ⟨s1, hs1, hok1, hsz1⟩ := applyOp_ok s op hg hpos.1
    obtain ⟨s2, hs2, hok2, hsz2⟩ := ih s1 hok1 hpos.2
    refine ⟨s2, ?_, hok2, ?_⟩
    · simp only [applyOps]
      rw [hs1]
      simp only [Option.bind_eq_bind, Option.some_bind]
      exact hs2
    · rw [hsz2, hsz1]
      rfl

/-! ### Claim theorems -/

/-- C1: for every grid created with `cols > 0` and `rows > 0`, after any
sequence of grid operations (`put_char`, `move_cursor`, `clear_line`,
`scroll_up`, `resize` to positive dimensions) and interpreter byte feeds, the
whole sequence succeeds, the cursor satisfies `cursor.x < cols` and
`cursor.y < rows` for the current grid dimensions, and the grid dimensions
equal the last successfully applied size. -/
theorem c1_cursor_invariant (cols rows : Nat) (ops : List EngineOp)
    (hcols : 0 < cols) (hrows : 0 < rows) (hpos : posResizes ops = true) :
    ∃ s', applyOps (initState cols rows) ops = some s' ∧
      s'.perf.grid.cursor.x < s'.perf.grid.size.1 ∧
      s'.perf.grid.cursor.y < s'.perf.grid.size.2 ∧
      s'.perf.grid.size = expectedSize (cols, rows) ops := by
  obtain ⟨s', hs', hok, hsz⟩ :=
    applyOps_ok ops (initState cols rows) (GridOk_new hcols hrows) hpos
  obtain ⟨h1, h2, h3, h4, h5, hx, hy⟩ := hok
  exact ⟨s', hs', hx, hy, hsz⟩

theorem c1_cursor_invariant_witness :
    ∃ s', applyOps (initState 2 2)
        [EngineOp.resize 3 3, EngineOp.feed [65, 10, 13],
         EngineOp.scroll_up 2, EngineOp.move_cursor 9 9,
         EngineOp.clear_line 1,
         EngineOp.put_char 'x' (Color32.from_rgb 1 2 3) (Color32.from_rgb 4 5 6) true]
        = some s' ∧
      s'.perf.grid.cursor.x < s'.perf.grid.size.1 ∧
      s'.perf.grid.cursor.y < s'.perf.grid.size.2 ∧
      s'.perf.grid.size = expectedSize (2, 2)
        [EngineOp.resize 3 3, EngineOp.feed [65, 10, 13],
         EngineOp.scroll_up 2, EngineOp.move_cursor 9 9,
         EngineOp.clear_line 1,
         EngineOp.put_char 'x' (Color32.from_rgb 1 2 3) (Color32.from_rgb 4 5 6) true] :=
  c1_cursor_invariant 2 2 _ (by decide) (by decide) (by decide)

/-- C2: the claim that no grid operation can panic fails on the code:
`scroll_up` calls `Vec::remove(0)` without a bounds check, so on a grid with
zero rows (reachable, e.g. `resize(80, 0)` from an `ActorMessage::Resize`
whose height is below one line height) `scroll_up(1)` panics.  In the
embedding the panic is the `none` result. -/
theorem c2_scroll_up_panics_on_zero_rows :
    ((TerminalGrid.new 80 24).resize 80 0).scroll_up 1 = none := by decide

/-- C5: `resize` to positive dimensions keeps every cell in the common
`min`-rectangle unchanged at the same coordinates, fills every newly added
cell with the default cell, clamps the cursor into the new bounds, and sets
`size` to the new dimensions. -/
theorem c5_resize_preserves_content (g : TerminalGrid) (cols rows : Nat)
    (hg : GridOk g) (hcols : 0 < cols) (hrows : 0 < rows) :
    (∀ x y, x < min g.size.1 cols → y < min g.size.2 rows →
      (g.resize cols rows).cellAt x y = g.cellAt x y) ∧
    (∀ x y, x < cols → y < rows → (g.size.1 ≤ x ∨ g.size.2 ≤ y) →
      (g.resize cols rows).cellAt x y = some TerminalCell.default) ∧
    (g.resize cols rows).cursor.x < cols ∧
    (g.resize cols rows).cursor.y < rows ∧
    (g.resize cols rows).size = (cols, rows) := by
  obtain ⟨hc, hrow, hd, hC, hR, hcx, hcy⟩ := hg
  have hlen0 : (g.cells.map fun row => listResize row cols TerminalCell.default).length
      = g.size.2 := by
    rw [List.length_map]; exact hc
  have hrowq : ∀ y, y < g.size.2 → y < rows →
      (g.resize cols rows).cells[y]?
        = (g.cells[y]?).map (fun row => listResize row cols TerminalCell.default) := by
    intro y hyR hyr
    simp only [TerminalGrid.resize]
    by_cases hgrow : g.size.2 < rows
    · rw [if_pos hgrow, List.getElem?_append]
      rw [if_pos (by rw [hlen0]; exact hyR)]
      exact List.getElem?_map _ _ _
    · rw [if_neg hgrow, List.getElem?_take]
      rw [if_pos hyr]
      exact List.getElem?_map _ _ _
  refine ⟨?_, ?_, ?_, ?_, rfl⟩
  · intro x y hxm hym
    have hxC : x < g.size.1 := lt_of_lt_of_le hxm (min_le_left _ _)
    have hxc : x < cols := lt_of_lt_of_le hxm (min_le_right _ _)
    have hyR : y < g.size.2 := lt_of_lt_of_le hym (min_le_left _ _)
    have hyr : y < rows := lt_of_lt_of_le hym (min_le_right _ _)
    have hylen : y < g.cells.length := by rw [hc]; exact hyR
    unfold TerminalGrid.cellAt
    rw [hrowq y hyR hyr, List.getElem?_eq_getElem hylen]
    have hrl : (getElem g.cells y hylen).length = g.size.1 := hrow _ (List.getElem_mem _)
    simp only [Option.map_some', Option.some_bind]
    unfold listResize
    rw [List.getElem?_append]
    rw [if_pos (by rw [List.length_take, hrl]; omega)]
    rw [List.getElem?_take, if_pos hxc]
  · intro x y hxc hyr hor
    unfold TerminalGrid.cellAt
    by_cases hyR : y < g.size.2
    · have hxC : g.size.1 ≤ x := by
        rcases hor with h | h
        · exact h
        · omega
      have hylen : y < g.cells.length := by rw [hc]; exact hyR
      rw [hrowq y hyR hyr, List.getElem?_eq_getElem hylen]
      have hrl : (getElem g.cells y hylen).length = g.size.1 := hrow _ (List.getElem_mem _)
      simp only [Option.map_some', Option.some_bind]
      unfold listResize
      rw [List.getElem?_append_right (by rw [List.length_take, hrl]; omega)]
      simp only [List.length_take, hrl, List.getElem?_replicate]
      rw [if_pos (by omega)]
    · have hyR2 : g.size.2 ≤ y := Nat.le_of_not_lt hyR
      have hgrow : g.size.2 < rows := lt_of_le_of_lt hyR2 hyr
      simp only [TerminalGrid.resize]
      rw [if_pos hgrow]
      rw [List.getElem?_append_right (by rw [hlen0]; exact hyR2)]
      simp only [hlen0, List.getElem?_replicate]
      rw [if_pos (by omega)]
      simp only [Option.some_bind]
      rw [List.getElem?_replicate, if_pos hxc]
  · simp only [TerminalGrid.resize]
    omega
  · simp only [TerminalGrid.resize]
    omega

theorem c5_resize_preserves_content_witness :
    (gridAB.resize 4 4).cellAt 0 0 = gridAB.cellAt 0 0 ∧
    (gridAB.resize 4 4).cellAt 1 1 = gridAB.cellAt 1 1 ∧
    (gridAB.resize 4 4).cellAt 3 3 = some TerminalCell.default ∧
    (gridAB.resize 4 4).cursor.x < 4 ∧
    (gridAB.resize 4 4).cursor.y < 4 ∧
    (gridAB.resize 4 4).size = (4, 4) :=
  ⟨(c5_resize_preserves_content gridAB 4 4 (by decide) (by decide) (by decide)).1
      0 0 (by decide) (by decide),
   (c5_resize_preserves_content gridAB 4 4 (by decide) (by decide) (by decide)).1
      1 1 (by decide) (by decide),
   (c5_resize_preserves_content gridAB 4 4 (by decide) (by decide) (by decide)).2.1
      3 3 (by decide) (by decide) (Or.inl (by decide)),
   (c5_resize_preserves_content gridAB 4 4 (by decide) (by decide) (by decide)).2.2.1,
   (c5_resize_preserves_content gridAB 4 4 (by decide) (by decide) (by decide)).2.2.2.1,
   (c5_resize_preserves_content gridAB 4 4 (by decide) (by decide) (by decide)).2.2.2.2⟩

/-- C3 counterexample: with a failing PTY allocation the constructor panics
(`.expect`), and no `SpawnError` value is ever returned to the caller —
contradicting the claim that the failure "is returned as a SpawnError". -/
theorem c3_spawn_error_counterexample :
    TerminalActor.new ⟨false, true, true, true⟩
      = CtorResult.panicked "Failed to open PTY" ∧
    ¬ ∃ msg, TerminalActor.new ⟨false, true, true, true⟩
      = CtorResult.spawnErrorReturned msg := by
  refine ⟨rfl, ?_⟩
  rintro ⟨msg, hmsg⟩
  exact CtorResult.noConfusion hmsg

/-- C3 amended: if allocating the PTY pair or spawning the shell fails,
`TerminalActor::new` panics out of the constructor (the failure is fatal and
not silently swallowed), the actor is never created, and the failure is not
returned to the caller as an error value. -/
theorem c3_spawn_failure_panics (env : PtyEnv)
    (h : env.openpty_ok = false ∨ env.spawn_ok = false) :
    (∃ msg, TerminalActor.new env = CtorResult.panicked msg) ∧
    TerminalActor.new env ≠ CtorResult.actor ∧
    ∀ msg, TerminalActor.new env ≠ CtorResult.spawnErrorReturned msg := by
  have hspawn : ∃ msg, spawn_shell env = Except.error msg := by
    unfold spawn_shell
    cases hOpen : env.openpty_ok with
    | false => exact ⟨"Failed to open PTY", rfl⟩
    | true =>
      have h2 : env.spawn_ok = false := by
        rcases h with h1 | h2
        · rw [hOpen] at h1; cases h1
        · exact h2
      exact ⟨"Failed to spawn shell", by rw [h2]; rfl⟩
  obtain ⟨msg, hmsg⟩ := hspawn
  refine ⟨⟨msg, ?_⟩, ?_, ?_⟩
  · unfold TerminalActor.new
    rw [hmsg]
  · unfold TerminalActor.new
    rw [hmsg]
    intro hcon
    cases hcon
  · intro m
    unfold TerminalActor.new
    rw [hmsg]
    intro hcon
    cases hcon

theorem c3_spawn_failure_panics_witness :
    (∃ msg, TerminalActor.new ⟨false, true, true, true⟩ = CtorResult.panicked msg) ∧
    TerminalActor.new ⟨false, true, true, true⟩ ≠ CtorResult.actor ∧
    ∀ msg, TerminalActor.new ⟨false, true, true, true⟩
      ≠ CtorResult.spawnErrorReturned msg :=
  c3_spawn_failure_panics ⟨false, true, true, true⟩ (Or.inl rfl)

/-- C4 counterexample: dispatching the OSC parameters of payload
`"2;hello"` leaves the performer (in particular the title) unchanged, against
the claim that a `"2;<title>"` payload sets the title. -/
theorem c4_osc_two_counterexample :
    (TerminalPerformer.new (TerminalGrid.new 80 24) TerminalColors.default).osc_dispatch
        ["2", "hello"]
      = TerminalPerformer.new (TerminalGrid.new 80 24) TerminalColors.default ∧
    ((TerminalPerformer.new (TerminalGrid.new 80 24) TerminalColors.default).osc_dispatch
        ["2", "hello"]).grid.title ≠ "hello" := by
  refine ⟨by decide, by decide⟩

/-- C4 amended: only an OSC whose first parameter is `"0"` and that has a
second parameter sets the title (to the second parameter); every other OSC
parameter list — including `"2;<title>"` — leaves the performer unchanged. -/
theorem c4_osc_only_zero_sets_title (p : TerminalPerformer) (t : String)
    (rest params : List String)
    (h : params.head? ≠ some "0" ∨ params.length < 2) :
    p.osc_dispatch ("0" :: t :: rest)
      = { p with grid := { p.grid with title := t } } ∧
    p.osc_dispatch params = p := by
  constructor
  · simp only [TerminalPerformer.osc_dispatch]
    split_ifs with h0
    · rfl
    · exact (h0 (by decide)).elim
  · match params, h with
    | [], h => rfl
    | [a], h => rfl
    | a :: b :: rest2, h =>
      have ha : a ≠ "0" := by
        rcases h with h1 | h2
        · intro he
          exact h1 (by rw [he]; rfl)
        · exact absurd h2 (by simp)
      simp only [TerminalPerformer.osc_dispatch]
      rw [if_neg ha]

theorem c4_osc_only_zero_sets_title_witness :
    (TerminalPerformer.new (TerminalGrid.new 80 24) TerminalColors.default).osc_dispatch
        ["0", "t"]
      = { TerminalPerformer.new (TerminalGrid.new 80 24) TerminalColors.default with
          grid := { (TerminalPerformer.new (TerminalGrid.new 80 24)
            TerminalColors.default).grid with title := "t" } } ∧
    (TerminalPerformer.new (TerminalGrid.new 80 24) TerminalColors.default).osc_dispatch
        ["2", "x"]
      = TerminalPerformer.new (TerminalGrid.new 80 24) TerminalColors.default :=
  c4_osc_only_zero_sets_title
    (TerminalPerformer.new (TerminalGrid.new 80 24) TerminalColors.default)
    "t" [] ["2", "x"] (Or.inl (by decide))

/-- C8 counterexample: the two key-input paths disagree on Backspace —
`handle_message` writes 0x08 while the `render` input loop writes 0x7F — so
there is no single canonical Backspace byte used on every input path. -/
theorem c8_backspace_counterexample :
    handleMessageKey EguiKey.backspace ⟨false⟩ = some "\x08" ∧
    renderInputKey EguiKey.backspace ⟨false⟩ = some "\x7f" ∧
    ("\x08" : String) ≠ "\x7f" := by
  refine ⟨rfl, rfl, by decide⟩

/-- C8 amended: both input paths map Enter to CR, Tab to TAB, the arrow keys
to CSI `A`/`B`/`C`/`D` and Ctrl+C/D/Z/L to 0x03/0x04/0x1A/0x0C, but Backspace
maps to 0x08 on the `handle_message` path and to 0x7F on the `render` input
path. -/
theorem c8_key_translation :
    (∀ m : Modifiers, handleMessageKey EguiKey.enter m = some "\r" ∧
      renderInputKey EguiKey.enter m = some "\r") ∧
    (∀ m : Modifiers, handleMessageKey EguiKey.backspace m = some "\x08" ∧
      renderInputKey EguiKey.backspace m = some "\x7f") ∧
    (∀ m : Modifiers, handleMessageKey EguiKey.tab m = some "\t" ∧
      renderInputKey EguiKey.tab m = some "\t") ∧
    (∀ m : Modifiers, handleMessageKey EguiKey.arrowUp m = some "\x1b[A" ∧
      renderInputKey EguiKey.arrowUp m = some "\x1b[A") ∧
    (∀ m : Modifiers, handleMessageKey EguiKey.arrowDown m = some "\x1b[B" ∧
      renderInputKey EguiKey.arrowDown m = some "\x1b[B") ∧
    (∀ m : Modifiers, handleMessageKey EguiKey.arrowRight m = some "\x1b[C" ∧
      renderInputKey EguiKey.arrowRight m = some "\x1b[C") ∧
    (∀ m : Modifiers, handleMessageKey EguiKey.arrowLeft m = some "\x1b[D" ∧
      renderInputKey EguiKey.arrowLeft m = some "\x1b[D") ∧
    (handleMessageKey EguiKey.keyC ⟨true⟩ = some "\x03" ∧
      renderInputKey EguiKey.keyC ⟨true⟩ = some "\x03") ∧
    (handleMessageKey EguiKey.keyD ⟨true⟩ = some "\x04" ∧
      renderInputKey EguiKey.keyD ⟨true⟩ = some "\x04") ∧
    (handleMessageKey EguiKey.keyZ ⟨true⟩ = some "\x1a" ∧
      renderInputKey EguiKey.keyZ ⟨true⟩ = some "\x1a") ∧
    (handleMessageKey EguiKey.keyL ⟨true⟩ = some "\x0c" ∧
      renderInputKey EguiKey.keyL ⟨true⟩ = some "\x0c") := by
  exact ⟨fun m => ⟨rfl, rfl⟩, fun m => ⟨rfl, rfl⟩, fun m => ⟨rfl, rfl⟩,
    fun m => ⟨rfl, rfl⟩, fun m => ⟨rfl, rfl⟩, fun m => ⟨rfl, rfl⟩,
    fun m => ⟨rfl, rfl⟩, ⟨rfl, rfl⟩, ⟨rfl, rfl⟩, ⟨rfl, rfl⟩, ⟨rfl, rfl⟩⟩

/-- C9: `A`/`B`/`C`/`D` move the cursor up/down/forward/back by the given
parameter, clamped (floored at 0 via `saturating_sub`, capped at the last
column/row via `min`), and an omitted parameter defaults to 1. -/
theorem c9_cursor_movement (p : TerminalPerformer) (n : Nat)
    (hcols : 0 < p.grid.size.1) (hrows : 0 < p.grid.size.2) :
    p.csi_dispatch [n] 'A' = some { p with grid := { p.grid with
      cursor := { p.grid.cursor with y := p.grid.cursor.y - n } } } ∧
    p.csi_dispatch [n] 'B' = some { p with grid := { p.grid with
      cursor := { p.grid.cursor with
        y := min (p.grid.cursor.y + n) (p.grid.size.2 - 1) } } } ∧
    p.csi_dispatch [n] 'C' = some { p with grid := { p.grid with
      cursor := { p.grid.cursor with
        x := min (p.grid.cursor.x + n) (p.grid.size.1 - 1) } } } ∧
    p.csi_dispatch [n] 'D' = some { p with grid := { p.grid with
      cursor := { p.grid.cursor with x := p.grid.cursor.x - n } } } ∧
    p.csi_dispatch [] 'A' = p.csi_dispatch [1] 'A' ∧
    p.csi_dispatch [] 'B' = p.csi_dispatch [1] 'B' ∧
    p.csi_dispatch [] 'C' = p.csi_dispatch [1] 'C' ∧
    p.csi_dispatch [] 'D' = p.csi_dispatch [1] 'D' :=
  ⟨rfl, rfl, rfl, rfl, rfl, rfl, rfl, rfl⟩

theorem c9_cursor_movement_witness :
    (initState 4 4).perf.csi_dispatch [3] 'B'
      = some { (initState 4 4).perf with grid := { (initState 4 4).perf.grid with
          cursor := { (initState 4 4).perf.grid.cursor with
            y := min ((initState 4 4).perf.grid.cursor.y + 3)
              ((initState 4 4).perf.grid.size.2 - 1) } } } :=
  (c9_cursor_movement (initState 4 4).perf 3 (by decide) (by decide)).2.1

/-- C6: SGR 31 sets the red foreground on the pen and SGR 0 resets
foreground, background and bold to defaults; feeding
`"\x1b[31mA\x1b[0mB"` to a fresh 80x24 interpreter leaves
cell (0,0) = ('A', red fg, default bg) and cell (1,0) = ('B', default fg,
default bg). -/
theorem c6_sgr_red_and_reset :
    (∀ p : TerminalPerformer, p.applySgrParam 31
      = { p with current_fg := p.colors.red }) ∧
    (∀ p : TerminalPerformer, p.applySgrParam 0
      = { p with current_fg := p.colors.foreground,
                 current_bg := p.colors.background, bold := false }) ∧
    ((processBytes (initState 80 24)
        [0x1B, 0x5B, 0x33, 0x31, 0x6D, 0x41, 0x1B, 0x5B, 0x30, 0x6D, 0x42]).bind
      (fun s => s.perf.grid.cellAt 0 0))
      = some { ch := 'A', fg := Color32.from_rgb 224 108 117,
               bg := Color32.from_rgb 40 44 52, bold := false,
               italic := false, underline := false, strikethrough := false } ∧
    ((processBytes (initState 80 24)
        [0x1B, 0x5B, 0x33, 0x31, 0x6D, 0x41, 0x1B, 0x5B, 0x30, 0x6D, 0x42]).bind
      (fun s => s.perf.grid.cellAt 1 0))
      = some { ch := 'B', fg := Color32.from_rgb 171 178 191,
               bg := Color32.from_rgb 40 44 52, bold := false,
               italic := false, underline := false, strikethrough := false } := by
  exact ⟨fun p => rfl, fun p => rfl, by decide, by decide⟩

theorem applySgrParam_unrecognized (p : TerminalPerformer) (q : Nat)
    (h : sgrCode q = false) : p.applySgrParam q = p := by
  have h' := of_decide_eq_false h
  unfold TerminalPerformer.applySgrParam sgrPen
  repeat rw [if_neg (by omega)]

theorem applySgr_unrecognized (p : TerminalPerformer) :
    ∀ (params : List Nat), (∀ q ∈ params, sgrCode q = false) →
    p.applySgr params = p := by
  intro params
  induction params with
  | nil => intro h; rfl
  | cons a as ih =>
    intro h
    unfold TerminalPerformer.applySgr at ih ⊢
    rw [List.foldl_cons,
      applySgrParam_unrecognized p a (h a (List.mem_cons_self a as))]
    exact ih (fun q hq => h q (List.mem_cons_of_mem _ hq))

/-- C7: a CSI sequence with an unrecognized final byte, or with `K`/`J`/`m`
and only out-of-range parameter values, leaves the performer (grid, cursor
and pen) entirely unchanged and does not panic; after any final byte the
parser is back at Ground; and concretely, feeding `"\x1b[99zQ"` to a fresh
interpreter prints 'Q' at the pre-sequence cursor position (0,0), leaving the
cursor at (1,0) and the parser at Ground.  (The `AllDirty` hypothesis holds
of every grid this program builds: dirty flags are only ever written
`true`.) -/
theorem c7_malformed_csi_recovery (p : TerminalPerformer) (params : List Nat)
    (c : Char)
    (hdl : p.grid.cursor.y < p.grid.dirty_lines.length)
    (hdirty : AllDirty p.grid)
    (hmal : recognizedCsiFinal c = false
      ∨ ((c = 'K' ∨ c = 'J') ∧ 3 ≤ (params[0]?).getD 0)
      ∨ (c = 'm' ∧ ∀ q ∈ params, sgrCode q = false)) :
    p.csi_dispatch params c = some p ∧
    (∀ (collected : List Nat) (cur : Option Nat) (b : Nat) (s' : InterpState),
      0x40 ≤ b → b ≤ 0x7E →
      advance ⟨ParserState.csi collected cur, p⟩ b = some s' →
      s'.parser = ParserState.ground) ∧
    ((processBytes (initState 80 24) [27, 91, 57, 57, 122, 81]).bind
      (fun s => s.perf.grid.cellAt 0 0))
      = some { TerminalCell.default with ch := 'Q' } ∧
    ((processBytes (initState 80 24) [27, 91, 57, 57, 122, 81]).map
      (fun s => (s.perf.grid.cursor.x, s.perf.grid.cursor.y, s.parser)))
      = some (1, 0, ParserState.ground) := by
  have hgetd : p.grid.dirty_lines[p.grid.cursor.y]? = some true := by
    rw [List.getElem?_eq_getElem hdl]
    exact congrArg some (hdirty _ (List.getElem_mem _))
  refine ⟨?_, ?_, by decide, by decide⟩
  · rcases hmal with hunrec | ⟨hKJ, hmode⟩ | ⟨hm, hcodes⟩
    · have h' := of_decide_eq_false hunrec
      have hHf : ¬(c = 'H' ∨ c = 'f') := fun hor =>
        h' (hor.elim (fun he => Or.inl he) (fun he => Or.inr (Or.inl he)))
      have hA : c ≠ 'A' := fun he => h' (Or.inr (Or.inr (Or.inl he)))
      have hB : c ≠ 'B' := fun he => h' (Or.inr (Or.inr (Or.inr (Or.inl he))))
      have hCc : c ≠ 'C' := fun he =>
        h' (Or.inr (Or.inr (Or.inr (Or.inr (Or.inl he)))))
      have hD : c ≠ 'D' := fun he =>
        h' (Or.inr (Or.inr (Or.inr (Or.inr (Or.inr (Or.inl he))))))
      have hK : c ≠ 'K' := fun he =>
        h' (Or.inr (Or.inr (Or.inr (Or.inr (Or.inr (Or.inr (Or.inl he)))))))
      have hJ : c ≠ 'J' := fun he =>
        h' (Or.inr (Or.inr (Or.inr (Or.inr (Or.inr (Or.inr (Or.inr (Or.inl he))))))))
      have hmm2 : c ≠ 'm' := fun he =>
        h' (Or.inr (Or.inr (Or.inr (Or.inr (Or.inr (Or.inr (Or.inr (Or.inr he))))))))
      unfold TerminalPerformer.csi_dispatch
      rw [if_neg hHf, if_neg hA, if_neg hB, if_neg hCc, if_neg hD, if_neg hK,
        if_neg hJ, if_neg hmm2]
    · rcases hKJ with hK | hJ
      · subst hK
        unfold TerminalPerformer.csi_dispatch
        rw [if_neg (by decide), if_neg (by decide), if_neg (by decide),
          if_neg (by decide), if_neg (by decide), if_pos rfl]
        rw [if_neg (by omega), if_neg (by omega), if_neg (by omega)]
        simp only [Option.bind_eq_bind, Option.some_bind]
        rw [vecSet_eq true hdl, list_set_self _ _ _ hgetd]
        simp only [Option.some_bind]
      · subst hJ
        unfold TerminalPerformer.csi_dispatch
        rw [if_neg (by decide), if_neg (by decide), if_neg (by decide),
          if_neg (by decide), if_neg (by decide), if_neg (by decide), if_pos rfl]
        rw [if_neg (by omega), if_neg (by omega), if_neg (by omega)]
        simp only [Option.bind_eq_bind, Option.some_bind]
    · subst hm
      unfold TerminalPerformer.csi_dispatch
      rw [if_neg (by decide), if_neg (by decide), if_neg (by decide),
        if_neg (by decide), if_neg (by decide), if_neg (by decide),
        if_neg (by decide), if_pos rfl]
      rw [applySgr_unrecognized p params hcodes]
  · intro collected cur b s' hb1 hb2 hadv
    simp only [advance] at hadv
    rw [if_neg (by omega), if_neg (by omega), if_pos ⟨hb1, hb2⟩] at hadv
    simp only [Option.bind_eq_bind, Option.bind_eq_some] at hadv
    obtain ⟨perf', hperf, hsome⟩ := hadv
    cases hsome
    rfl

theorem c7_malformed_csi_recovery_witness :
    (initState 4 4).perf.csi_dispatch [99] 'z' = some ((initState 4 4).perf) :=
  (c7_malformed_csi_recovery (initState 4 4).perf [99] 'z' (by decide) (by decide)
    (Or.inl (by decide))).1

/-- C10: a freshly created grid has no italic/underline/strikethrough flag
set, and processing any byte sequence from a fresh interpreter succeeds and
keeps every cell's italic, underline and strikethrough flags false: the pen
carries only colors and bold, and the print path writes `false` for the other
three flags unconditionally, so no byte sequence can ever set them. -/
theorem c10_styles_never_set (cols rows : Nat) (bytes : List Nat)
    (hcols : 0 < cols) (hrows : 0 < rows) :
    StylesOff (TerminalGrid.new cols rows) ∧
    ∃ s', processBytes (initState cols rows) bytes = some s' ∧
      StylesOff s'.perf.grid := by
  refine ⟨stylesOff_new cols rows, ?_⟩
  obtain ⟨s', hs', hok, hsz, hsty⟩ :=
    processBytes_ok bytes (initState cols rows) (GridOk_new hcols hrows)
  exact ⟨s', hs', hsty (stylesOff_new cols rows)⟩

theorem c10_styles_never_set_witness :
    StylesOff (TerminalGrid.new 2 2) ∧
    ∃ s', processBytes (initState 2 2) [27, 91, 49, 109, 65] = some s' ∧
      StylesOff s'.perf.grid :=
  c10_styles_never_set 2 2 [27, 91, 49, 109, 65] (by decide) (by decide)

end ZellijIde
